import Mathlib

/-
  Verification of the station-dashboard core of Peta-Selection.py and
  Peta-Selection-v4.py: spreadsheet ingestion, station indexing and
  selection-state logic, embedded shallowly over lists of records.
  Line references name Peta-Selection.py unless the v4 file is given.
-/

/-- Python strings are modelled as lists of characters. -/
abbrev Str := List Char

/-- A spreadsheet cell holding a station identifier or phone number: the
source data may store it as a number or as a string, and it may be a
missing cell (NaN). -/
inductive PyVal where
  | num (n : Int)
  | str (s : Str)
  | nan
deriving DecidableEq

/-- One projected spreadsheet row, with the sixteen columns selected by
load_site_metadata (line 40). Optional cells are None when the cell is
NaN or NaT; dates are represented by their formatted string. -/
structure StationRecord where
  id_station : PyVal
  name_station : Str
  nama_propinsi : Option Str
  nama_kota : Option Str
  kecamatan : Option Str
  kelurahan : Option Str
  latt_station : Option ℚ
  long_station : Option ℚ
  elv_station : Option ℚ
  status_operasional : Option Str
  hp_petugas : Option PyVal
  tgl_pasang : Option Str
  addr_instansi : Option Str
  data_transport : Option Str
  instansi : Option Str
  nama_vendor : Option Str
deriving DecidableEq

/-- A row of the unified table: a projected record tagged with the name of
the sheet it came from (column JENIS, line 41). -/
structure SiteRow where
  record : StationRecord
  JENIS : Str
deriving DecidableEq

/-- One sheet of the workbook: its name and its projected rows. -/
structure Sheet where
  name : Str
  rows : List StationRecord
deriving DecidableEq

/-- dropna(subset=[latt_station, long_station]) keeps a row iff both
coordinate cells are present (line 41). -/
def coordValid (r : StationRecord) : Bool :=
  r.latt_station.isSome && r.long_station.isSome

/-- load_site_metadata (lines 28-48, v4 lines 20-40): per sheet, keep the
rows having both coordinates, tag them with the sheet name, then
concatenate all the per-sheet frames in sheet order (pd.concat). -/
def load_site_metadata (sheets : List Sheet) : List SiteRow :=
  (sheets.map (fun sh => (sh.rows.filter coordValid).map (fun r => ⟨r, sh.name⟩))).flatten

/-- Python str() of a stored cell value. -/
def pyStr : PyVal → Str
  | PyVal.num n => (toString n).toList
  | PyVal.str s => s
  | PyVal.nan => ("nan").toList

/-- Python == between a stored cell value and a string: an int never
equals a str, and a missing cell never equals a str. -/
def pyEqStr : PyVal → Str → Bool
  | PyVal.num _, _ => false
  | PyVal.str t, s => t == s
  | PyVal.nan, _ => false

/-- The detail-panel lookup df[df[id_station] == selected_id_station].iloc[0]
(line 371, v4 line 439): filter the full table by raw-cell equality against
the session string and take the first row; iloc[0] raises IndexError when
the filtered frame is empty, modelled here as None. -/
def selected_site_lookup (df : List SiteRow) (selected_id_station : Str) : Option SiteRow :=
  (df.filter (fun row => pyEqStr row.record.id_station selected_id_station)).head?

/-- Index of the first element satisfying p, None when there is none. -/
def firstIdx {α : Type} (p : α → Bool) : List α → Option Nat
  | [] => Option.none
  | a :: l => if p a then some 0 else (firstIdx p l).map (fun i => i + 1)

/-- df[df[JENIS] == t]: the partition of the unified table for one station
type (line 222, v4 line 232). -/
def filterByType (df : List SiteRow) (t : Str) : List SiteRow :=
  df.filter (fun row => row.JENIS == t)

/-- Dropdown default index (lines 274-280): the position inside the
filtered partition of the first record whose canonical string id equals the
session id; the except-branch maps IndexError or KeyError to 0. -/
def default_index (filtered : List SiteRow) (selected_id_str : Str) : Nat :=
  match firstIdx (fun row => pyStr row.record.id_station == selected_id_str) filtered with
  | some i => i
  | Option.none => 0

/-- The display-name separator, the three characters of " - " (line 268). -/
def SEP : Str := [' ', '-', ' ']

/-- Does the string begin with the given pattern. -/
def strBegins : Str → Str → Bool
  | [], _ => true
  | _ :: _, [] => false
  | c :: cs, d :: ds => c == d && strBegins cs ds

/-- Python s.split(sep)[0] for a fixed separator: the part of s before the
first occurrence of sep, or all of s when sep does not occur (line 289). -/
def splitFirst (sep : Str) : Str → Str
  | [] => []
  | c :: rest => if strBegins sep (c :: rest) then [] else c :: splitFirst sep rest

/-- Dropdown display string (lines 267-268): str(id) ++ " - " ++ name. -/
def display (row : SiteRow) : Str :=
  pyStr row.record.id_station ++ SEP ++ row.record.name_station

/-- One script rerun after the user changes the station type
(lines 260-293): rebuild the partition and its display options, recompute
the dropdown default index from the session id, read the freshly rendered
dropdown at that index, and write the part of that display string before
the separator back into the session; when the partition is empty only a
warning is shown and the session id is untouched. -/
def type_change_rerun (df : List SiteRow) (new_type : Str) (sess : Str) : Str :=
  if (filterByType df new_type).isEmpty then sess
  else
    splitFirst SEP
      (((filterByType df new_type).map display).getD
        (default_index (filterByType df new_type) sess) [])

/-- Squared planar distance of a row to the clicked point, as computed by
the click handler (line 349), the ** 2 of the source written as a product;
loaded rows always carry both coordinates, so the 0 default of getD is
never used on the unified table. -/
def sqDist (lat lon : ℚ) (row : SiteRow) : ℚ :=
  (row.record.latt_station.getD 0 - lat) * (row.record.latt_station.getD 0 - lat) +
  (row.record.long_station.getD 0 - lon) * (row.record.long_station.getD 0 - lon)

/-- Series.idxmin as a fold keeping the first element attaining the
minimum: a later element replaces the current best only when strictly
smaller. -/
def idxminFold {α : Type} (f : α → ℚ) (r : α) (rs : List α) : α :=
  rs.foldl (fun best x => if f x < f best then x else best) r

/-- The click handler (lines 348-350, v4 lines 311-313): the row of the
full table minimizing the squared planar distance to the click, the first
such row on ties (Series.idxmin); None on an empty table. -/
def nearest (df : List SiteRow) (lat lon : ℚ) : Option SiteRow :=
  match df with
  | [] => Option.none
  | r :: rs => some (idxminFold (sqDist lat lon) r rs)

/-- The per-session selection state: the radio-chosen active type and the
session id in canonical string form. -/
structure SelState where
  activeType : Str
  selected_id_station : Str
deriving DecidableEq

/-- Resolution of a map click to the pending candidate station
(lines 341-350). -/
def resolve_click (df : List SiteRow) (click : Option (ℚ × ℚ)) : Option SiteRow :=
  match click with
  | some c => nearest df c.1 c.2
  | Option.none => Option.none

/-- Map-click handling (lines 352-358, v4 lines 316-321): the candidate is
shown with st.info, and only when the confirmation button is pressed is
str(id) of the candidate written into the session; the active type is
never written by this handler. -/
def map_click_step (df : List SiteRow) (s : SelState)
    (click : Option (ℚ × ℚ)) (confirm : Bool) : SelState :=
  match resolve_click df click with
  | some row =>
      if confirm then { s with selected_id_station := pyStr row.record.id_station } else s
  | Option.none => s

/-- The metacharacters of the Python re module. -/
def metaChar (c : Char) : Bool :=
  c == '.' || c == '^' || c == '$' || c == '*' || c == '+' || c == '?' ||
  c == '{' || c == '}' || c == '[' || c == ']' || c == '(' || c == ')' ||
  c == '|' || c == '\\'

/-- The term contains no regex metacharacter, so the re module treats every
one of its characters literally. -/
def noMeta (t : Str) : Bool := t.all (fun c => !(metaChar c))

/-- Case-insensitive match of a literal-and-dot regex pattern at the start
of the string: a dot matches any one character, any other pattern character
matches its own letter up to case (re.IGNORECASE). -/
def reMatchHere : Str → Str → Bool
  | [], _ => true
  | _ :: _, [] => false
  | p :: ps, c :: cs => (p == '.' || p.toLower == c.toLower) && reMatchHere ps cs

/-- re.search with IGNORECASE on the literal-and-dot fragment of the regex
language: the pattern matches at some position of the string. -/
def reSearch (pat : Str) : Str → Bool
  | [] => reMatchHere pat []
  | c :: cs => reMatchHere pat (c :: cs) || reSearch pat cs

/-- Series.str.contains(term, case=False, na=False) on one cell: a missing
cell never matches (na=False); a present cell is searched by the regex
engine with IGNORECASE, modelled on the literal-and-dot fragment, which is
faithful to re.search for patterns built from literals and dots. -/
def strContainsCell (term : Str) : Option Str → Bool
  | some s => reSearch term s
  | Option.none => false

/-- The directory search (lines 471-480, v4 lines 390-399): an empty term
is falsy and keeps the whole table; otherwise keep the rows where the
name, province or district column matches the term, the OR of the three
boolean masks. -/
def search_filter (df : List SiteRow) (term : Str) : List SiteRow :=
  if term.isEmpty then df
  else
    df.filter (fun row =>
      strContainsCell term (some row.record.name_station) ||
      strContainsCell term row.record.nama_propinsi ||
      strContainsCell term row.record.nama_kota)

/-- Case-insensitive begins-with for plain text. -/
def beginsCI : Str → Str → Bool
  | [], _ => true
  | _ :: _, [] => false
  | p :: ps, c :: cs => p.toLower == c.toLower && beginsCI ps cs

/-- Case-insensitive substring containment for plain text. -/
def isSubstrCI (t : Str) : Str → Bool
  | [] => beginsCI t []
  | c :: cs => beginsCI t (c :: cs) || isSubstrCI t cs

/-- Modelled from the wording of the specification, for comparison with
search_filter: case-insensitive substring match against name, province or
district with OR semantics, an empty term returning the full table. -/
def search_spec (df : List SiteRow) (term : Str) : List SiteRow :=
  if term.isEmpty then df
  else
    df.filter (fun row =>
      isSubstrCI term row.record.name_station ||
      (match row.record.nama_propinsi with
       | some s => isSubstrCI term s
       | Option.none => false) ||
      (match row.record.nama_kota with
       | some s => isSubstrCI term s
       | Option.none => false))

/-- A DataFrame as seen by the directory tab: the loaded rows together with
the derived columns that have been assigned onto the frame. -/
structure Frame where
  rows : List SiteRow
  extra_cols : List Str
deriving DecidableEq

/-- The directory step (lines 471-483, v4 lines 390-402): with a truthy
term, search_df is a fresh filtered frame and the tgl_pasang_str column
assignment lands on that copy; with an empty term, search_df is the loaded
frame itself (search_df = df, no copy is taken), so the assignment adds the
derived column to the loaded table in place. Returns the loaded frame as
observed after the step together with the frame that is rendered and
exported. -/
def directory_step (df : Frame) (term : Str) : Frame × Frame :=
  if term.isEmpty then
    (⟨df.rows, df.extra_cols ++ [("tgl_pasang_str").toList]⟩,
     ⟨df.rows, df.extra_cols ++ [("tgl_pasang_str").toList]⟩)
  else
    (df,
     ⟨search_filter df.rows term, df.extra_cols ++ [("tgl_pasang_str").toList]⟩)

/-- Errors raised while rendering a panel. -/
inductive RenderError where
  | natNoStrftime
deriving DecidableEq

/-- The detail-panel Procurement Date line (line 404, v4 line 470):
strftime is called on the cell with no notna guard, so a missing date (NaT)
raises, since NaTType does not support strftime. -/
def render_procurement_date (tgl_pasang : Option Str) : Except RenderError Str :=
  match tgl_pasang with
  | some d => Except.ok d
  | Option.none => Except.error RenderError.natNoStrftime

/-- The map-popup installation-date line (lines 150-153): guarded by
pd.notna plus hasattr, a missing date renders as the explicit placeholder
string. -/
def render_popup_install_date (tgl_pasang : Option Str) : Str :=
  match tgl_pasang with
  | some d => d
  | Option.none => ("N/A").toList

/-- A write to the session selection id: the dropdown or type-change path
stores the part of the chosen display string before the separator
(lines 289-293), and a confirmed map click stores str of the clicked id
(line 357). -/
inductive SessionEvent where
  | dropdownPick (selected_site_display : Str)
  | mapClickConfirm (clicked_station : SiteRow)

/-- Session initialization (lines 235-236, v4 lines 220-221): the default
site id, as a string literal. -/
def session_init : PyVal := PyVal.str (("10001").toList)

/-- The value written into the session by one selection event. -/
def session_step : PyVal → SessionEvent → PyVal
  | _, SessionEvent.dropdownPick disp => PyVal.str (splitFirst SEP disp)
  | _, SessionEvent.mapClickConfirm row => PyVal.str (pyStr row.record.id_station)

/-- Is the dynamic value a Python str. -/
def isStrVal : PyVal → Bool
  | PyVal.str _ => true
  | _ => false

/-- A fully absent projected row, used as the base of the concrete
examples below. -/
def baseRec : StationRecord :=
  { id_station := PyVal.nan, name_station := [], nama_propinsi := Option.none,
    nama_kota := Option.none, kecamatan := Option.none, kelurahan := Option.none,
    latt_station := Option.none, long_station := Option.none, elv_station := Option.none,
    status_operasional := Option.none, hp_petugas := Option.none, tgl_pasang := Option.none,
    addr_instansi := Option.none, data_transport := Option.none, instansi := Option.none,
    nama_vendor := Option.none }

/-- A placeholder row used only as a getD default in lemma statements. -/
def dummyRow : SiteRow := ⟨baseRec, []⟩

/-- Example sheet rows: a coordinate-complete AWS row. -/
def recC1a : StationRecord :=
  { baseRec with id_station := PyVal.num 1, name_station := ("Alpha").toList,
                 latt_station := some (-2), long_station := some 110 }

/-- Example sheet rows: an AWS row with a missing latitude. -/
def recC1b : StationRecord :=
  { baseRec with id_station := PyVal.num 2, name_station := ("Beta").toList,
                 long_station := some 112 }

/-- Example sheet rows: a coordinate-complete ARG row. -/
def recC1c : StationRecord :=
  { baseRec with id_station := PyVal.num 1, name_station := ("Gamma").toList,
                 latt_station := some 3, long_station := some 98 }

/-- Example workbook sheet AWS. -/
def sheetC1A : Sheet := ⟨("AWS").toList, [recC1a, recC1b]⟩

/-- Example workbook sheet ARG. -/
def sheetC1B : Sheet := ⟨("ARG").toList, [recC1c]⟩

/-- Example workbook with two sheets. -/
def sheetsC1 : List Sheet := [sheetC1A, sheetC1B]

/-- A unified-table row whose id is stored numerically, as the source
spreadsheet may do. -/
def rowC2 : SiteRow :=
  ⟨{ baseRec with id_station := PyVal.num 10001, name_station := ("Delta").toList,
                  latt_station := some 1, long_station := some 2 }, ("AWS").toList⟩

/-- A one-row unified table with a numerically stored id. -/
def dfC2 : List SiteRow := [rowC2]

/-- Two loaded rows for the nearest-station witness. -/
def rowC4a : SiteRow :=
  ⟨{ baseRec with id_station := PyVal.num 1, name_station := ("P").toList,
                  latt_station := some 0, long_station := some 0 }, ("AWS").toList⟩

/-- Two loaded rows for the nearest-station witness. -/
def rowC4b : SiteRow :=
  ⟨{ baseRec with id_station := PyVal.num 2, name_station := ("Q").toList,
                  latt_station := some 3, long_station := some 4 }, ("ARG").toList⟩

/-- A two-row unified table for the nearest-station witness. -/
def dfC4 : List SiteRow := [rowC4a, rowC4b]

/-- A row of type A whose string id contains the display separator. -/
def rowC5A : SiteRow :=
  ⟨{ baseRec with id_station := PyVal.str (("1 - 2").toList),
                  name_station := ("N").toList,
                  latt_station := some 1, long_station := some 1 }, ("A").toList⟩

/-- A row of type B carrying the same separator-bearing string id. -/
def rowC5B : SiteRow :=
  ⟨{ baseRec with id_station := PyVal.str (("1 - 2").toList),
                  name_station := ("M").toList,
                  latt_station := some 2, long_station := some 2 }, ("B").toList⟩

/-- A table on which the type-change transition loses the selected id. -/
def dfC5 : List SiteRow := [rowC5A, rowC5B]

/-- An AWS row with a clean numeric id, for the type-change witness. -/
def rowC5W1 : SiteRow :=
  ⟨{ baseRec with id_station := PyVal.num 10001, name_station := ("Alpha").toList,
                  latt_station := some 1, long_station := some 1 }, ("AWS").toList⟩

/-- An ARG row with a clean numeric id, for the type-change witness. -/
def rowC5W2 : SiteRow :=
  ⟨{ baseRec with id_station := PyVal.num 20002, name_station := ("Beta").toList,
                  latt_station := some 2, long_station := some 2 }, ("ARG").toList⟩

/-- A two-type table for the type-change witness. -/
def dfC5W : List SiteRow := [rowC5W1, rowC5W2]

/-- A loaded frame with no derived columns, for the directory step. -/
def dfC6 : Frame := ⟨[rowC4a, rowC4b], []⟩

/-- A row whose name is matched by the dot regex but not by substring. -/
def rowC8 : SiteRow :=
  ⟨{ baseRec with id_station := PyVal.num 7, name_station := ("abc").toList,
                  latt_station := some 1, long_station := some 1 }, ("AWS").toList⟩

/-- A one-row table for the regex-versus-substring counterexample. -/
def dfC8 : List SiteRow := [rowC8]

/-- A row matched by a search term only through its province column. -/
def rowC8W : SiteRow :=
  ⟨{ baseRec with id_station := PyVal.num 8, name_station := ("Station One").toList,
                  nama_propinsi := some (("DKI Jakarta").toList),
                  latt_station := some 1, long_station := some 1 }, ("AWS").toList⟩

/-- A one-row table for the search witness. -/
def dfC8W : List SiteRow := [rowC8W]

/-- A row whose string id contains the display separator, breaking the
display round-trip. -/
def rowC9c : SiteRow :=
  ⟨{ baseRec with id_station := PyVal.str (("1 - 2").toList),
                  name_station := ("N").toList,
                  latt_station := some 1, long_station := some 1 }, ("AWS").toList⟩

/-- A row with a clean numeric id, for the round-trip witness. -/
def rowC9w : SiteRow :=
  ⟨{ baseRec with id_station := PyVal.num 10001,
                  name_station := ("Ujung Kulon").toList,
                  latt_station := some 1, long_station := some 1 }, ("AWS").toList⟩

theorem firstIdx_eq_none_iff {α : Type} (p : α → Bool) (l : List α) :
    firstIdx p l = Option.none ↔ ∀ a ∈ l, p a = false := by
  induction l with
  | nil => simp [firstIdx]
  | cons a l ih =>
    cases hpa : p a with
    | true => simp [firstIdx, hpa]
    | false =>
      simp only [firstIdx, hpa, Bool.false_eq_true, if_false, Option.map_eq_none',
        List.mem_cons]
      constructor
      · intro hn b hb
        rcases hb with hb | hb
        · subst hb; exact hpa
        · exact (ih.mp hn) b hb
      · intro hall
        exact ih.mpr (fun b hb => hall b (Or.inr hb))

theorem firstIdx_some_spec {α : Type} (p : α → Bool) (l : List α) (i : Nat) (d : α)
    (h : firstIdx p l = some i) : i < l.length ∧ p (l.getD i d) = true := by
  induction l generalizing i with
  | nil => simp [firstIdx] at h
  | cons a l ih =>
    cases hpa : p a with
    | true =>
      simp only [firstIdx, hpa, if_true, Option.some.injEq] at h
      subst h
      exact ⟨Nat.succ_pos _, by simpa [List.getD] using hpa⟩
    | false =>
      simp only [firstIdx, hpa, Bool.false_eq_true, if_false, Option.map_eq_some'] at h
      obtain ⟨j, hj, rfl⟩ := h
      obtain ⟨hlt, hp⟩ := ih j hj
      refine ⟨Nat.succ_lt_succ hlt, ?_⟩
      simpa [List.getD] using hp

theorem getD_map_of_lt {α β : Type} (f : α → β) (l : List α) (i : Nat) (d : α) (e : β)
    (h : i < l.length) : (l.map f).getD i e = f (l.getD i d) := by
  induction l generalizing i with
  | nil => simp at h
  | cons a l ih =>
    cases i with
    | zero => rfl
    | succ j =>
      have hj : j < l.length := Nat.lt_of_succ_lt_succ h
      simpa [List.getD] using ih j hj

theorem getD_mem_of_lt {α : Type} (l : List α) (i : Nat) (d : α)
    (h : i < l.length) : l.getD i d ∈ l := by
  induction l generalizing i with
  | nil => simp at h
  | cons a l ih =>
    cases i with
    | zero => exact List.mem_cons_self a l
    | succ j =>
      have hj : j < l.length := Nat.lt_of_succ_lt_succ h
      exact List.mem_cons_of_mem a (by simpa [List.getD] using ih j hj)

theorem strBegins_self_append (s t : Str) : strBegins s (s ++ t) = true := by
  induction s with
  | nil => rfl
  | cons c cs ih => simp [strBegins, ih]

theorem strBegins_append_of_le (s t b : Str) (h : s.length ≤ t.length) :
    strBegins s (t ++ b) = strBegins s t := by
  induction s generalizing t with
  | nil => rfl
  | cons c cs ih =>
    cases t with
    | nil => simp at h
    | cons d ds =>
      show (c == d && strBegins cs (ds ++ b)) = (c == d && strBegins cs ds)
      rw [ih ds (Nat.le_of_succ_le_succ h)]

theorem splitFirst_append_sep (a b : Str)
    (h : splitFirst SEP (a ++ SEP) = a) :
    splitFirst SEP (a ++ SEP ++ b) = a := by
  induction a with
  | nil =>
    have hb : strBegins SEP (' ' :: '-' :: ' ' :: b) = true := strBegins_self_append SEP b
    show splitFirst SEP (' ' :: '-' :: ' ' :: b) = []
    simp [splitFirst, hb]
  | cons c a' ih =>
    have h1 : splitFirst SEP (c :: (a' ++ SEP)) = c :: a' := by
      rw [List.cons_append] at h; exact h
    have hgoal : (c :: a') ++ SEP ++ b = c :: ((a' ++ SEP) ++ b) := by simp
    rw [hgoal]
    have hu : splitFirst SEP (c :: (a' ++ SEP)) =
        if strBegins SEP (c :: (a' ++ SEP)) then [] else c :: splitFirst SEP (a' ++ SEP) := rfl
    cases hs : strBegins SEP (c :: (a' ++ SEP)) with
    | true =>
      rw [hu, hs, if_pos rfl] at h1
      exact absurd h1.symm (List.cons_ne_nil c a')
    | false =>
      rw [hu, hs] at h1
      simp only [Bool.false_eq_true, if_false, List.cons.injEq] at h1
      have htail : splitFirst SEP (a' ++ SEP) = a' := h1.2
      have hlen : SEP.length ≤ (c :: (a' ++ SEP)).length := by
        simp [SEP]
      have hcond : strBegins SEP (c :: ((a' ++ SEP) ++ b)) = false := by
        have := strBegins_append_of_le SEP (c :: (a' ++ SEP)) b hlen
        rw [List.cons_append] at this
        rw [this]
        exact hs
      have hu2 : splitFirst SEP (c :: ((a' ++ SEP) ++ b)) =
          if strBegins SEP (c :: ((a' ++ SEP) ++ b)) then []
          else c :: splitFirst SEP ((a' ++ SEP) ++ b) := rfl
      rw [hu2, hcond]
      simp only [Bool.false_eq_true, if_false, List.cons.injEq]
      have hassoc : (a' ++ SEP) ++ b = a' ++ SEP ++ b := by simp
      rw [hassoc]
      exact ⟨trivial, ih htail⟩

theorem display_roundtrip (row : SiteRow)
    (h : splitFirst SEP (pyStr row.record.id_station ++ SEP) = pyStr row.record.id_station) :
    splitFirst SEP (display row) = pyStr row.record.id_station := by
  have key := splitFirst_append_sep (pyStr row.record.id_station) row.record.name_station h
  simpa [display] using key

theorem idxminFold_first_min {α : Type} (f : α → ℚ) (rs : List α) :
    ∀ r : α,
      (∀ x ∈ r :: rs, f (idxminFold f r rs) ≤ f x) ∧
      ∃ l₁ l₂, r :: rs = l₁ ++ idxminFold f r rs :: l₂ ∧
        ∀ x ∈ l₁, f (idxminFold f r rs) < f x := by
  induction rs with
  | nil =>
    intro r
    refine ⟨?_, [], [], rfl, by intro x hx; simp at hx⟩
    intro x hx
    rcases List.mem_cons.mp hx with hx | hx
    · subst hx; exact le_refl _
    · simp at hx
  | cons y rs ih =>
    intro r
    have hstep : idxminFold f r (y :: rs) = idxminFold f (if f y < f r then y else r) rs := rfl
    by_cases hy : f y < f r
    · rw [hstep, if_pos hy]
      obtain ⟨hmin, l₁, l₂, hdec, hpre⟩ := ih y
      refine ⟨?_, r :: l₁, l₂, by rw [List.cons_append, ← hdec], ?_⟩
      · intro x hx
        rcases List.mem_cons.mp hx with hx | hx
        · subst hx
          exact le_trans (hmin y (List.mem_cons_self y rs)) (le_of_lt hy)
        · exact hmin x hx
      · intro x hx
        rcases List.mem_cons.mp hx with hx | hx
        · subst hx
          exact lt_of_le_of_lt (hmin y (List.mem_cons_self y rs)) hy
        · exact hpre x hx
    · rw [hstep, if_neg hy]
      have hry : f r ≤ f y := le_of_not_lt hy
      obtain ⟨hmin, l₁, l₂, hdec, hpre⟩ := ih r
      refine ⟨?_, ?_⟩
      · intro x hx
        rcases List.mem_cons.mp hx with hx | hx
        · rw [hx]; exact hmin r (List.mem_cons_self r rs)
        rcases List.mem_cons.mp hx with hx | hx
        · rw [hx]
          exact le_trans (hmin r (List.mem_cons_self r rs)) hry
        · exact hmin x (List.mem_cons_of_mem r hx)
      · cases l₁ with
        | nil =>
          have hb : r = idxminFold f r rs := by
            have := hdec
            rw [List.nil_append] at this
            exact (List.cons.inj this).1
          refine ⟨[], y :: rs, ?_, by intro x hx; simp at hx⟩
          rw [List.nil_append, ← hb]
        | cons z l₁ =>
          rw [List.cons_append] at hdec
          have hz : r = z := (List.cons.inj hdec).1
          have hrs : rs = l₁ ++ idxminFold f r rs :: l₂ := (List.cons.inj hdec).2
          refine ⟨r :: y :: l₁, l₂, ?_, ?_⟩
          · rw [List.cons_append, List.cons_append, ← hrs]
          · intro x hx
            have hbr : f (idxminFold f r rs) < f r := by
              have := hpre z (List.mem_cons_self z l₁)
              rw [← hz] at this
              exact this
            rcases List.mem_cons.mp hx with hx | hx
            · subst hx; exact hbr
            rcases List.mem_cons.mp hx with hx | hx
            · subst hx; exact lt_of_lt_of_le hbr hry
            · exact hpre x (List.mem_cons_of_mem z hx)

theorem reMatchHere_eq_beginsCI : ∀ t : Str, noMeta t = true →
    ∀ s, reMatchHere t s = beginsCI t s := by
  intro t
  induction t with
  | nil => intro _ s; rfl
  | cons p ps ih =>
    intro h s
    have hall : (!metaChar p) = true ∧ List.all ps (fun c => !(metaChar c)) = true := by
      rw [noMeta, List.all_cons] at h
      simpa [Bool.and_eq_true] using h
    have hm : metaChar p = false := by
      cases hmp : metaChar p with
      | false => rfl
      | true => rw [hmp] at hall; simp at hall
    have hdot : (p == '.') = false := by
      cases hpd : p == '.' with
      | false => rfl
      | true =>
        rw [metaChar, hpd] at hm
        simp at hm
    cases s with
    | nil => rfl
    | cons c cs =>
      show ((p == '.' || p.toLower == c.toLower) && reMatchHere ps cs)
         = ((p.toLower == c.toLower) && beginsCI ps cs)
      rw [hdot, Bool.false_or, ih hall.2 cs]

theorem reSearch_eq_isSubstrCI (t : Str) (h : noMeta t = true) :
    ∀ s, reSearch t s = isSubstrCI t s := by
  intro s
  induction s with
  | nil => exact reMatchHere_eq_beginsCI t h []
  | cons c cs ih =>
    show (reMatchHere t (c :: cs) || reSearch t cs)
       = (beginsCI t (c :: cs) || isSubstrCI t cs)
    rw [reMatchHere_eq_beginsCI t h (c :: cs), ih]

theorem search_filter_eq_spec (df : List SiteRow) (term : Str)
    (h : noMeta term = true) : search_filter df term = search_spec df term := by
  cases hte : term.isEmpty with
  | true => simp [search_filter, search_spec, hte]
  | false =>
    simp only [search_filter, search_spec, hte, Bool.false_eq_true, if_false]
    apply List.filter_congr
    intro row _
    have hname : strContainsCell term (some row.record.name_station)
        = isSubstrCI term row.record.name_station := by
      show reSearch term row.record.name_station = isSubstrCI term row.record.name_station
      exact reSearch_eq_isSubstrCI term h _
    rw [hname]
    cases hp : row.record.nama_propinsi with
    | none =>
      cases hk : row.record.nama_kota with
      | none => rfl
      | some sk =>
        show (isSubstrCI term row.record.name_station || false || reSearch term sk)
           = (isSubstrCI term row.record.name_station || false || isSubstrCI term sk)
        rw [reSearch_eq_isSubstrCI term h sk]
    | some sp =>
      cases hk : row.record.nama_kota with
      | none =>
        show (isSubstrCI term row.record.name_station || reSearch term sp || false)
           = (isSubstrCI term row.record.name_station || isSubstrCI term sp || false)
        rw [reSearch_eq_isSubstrCI term h sp]
      | some sk =>
        show (isSubstrCI term row.record.name_station || reSearch term sp || reSearch term sk)
           = (isSubstrCI term row.record.name_station || isSubstrCI term sp || isSubstrCI term sk)
        rw [reSearch_eq_isSubstrCI term h sp, reSearch_eq_isSubstrCI term h sk]

/-- C1: for every input workbook, the loader drops exactly the rows lacking
latitude or longitude: every row of the resulting unified table has both
coordinates present, every input row with both coordinates appears in the
output tagged with its sheet, and the output row count is the sum over the
sheets of their coordinate-valid row counts. -/
theorem C1_loader_drops_rows_without_coordinates (sheets : List Sheet) :
    (∀ row ∈ load_site_metadata sheets,
        row.record.latt_station.isSome = true ∧ row.record.long_station.isSome = true) ∧
    (∀ sh ∈ sheets, ∀ r ∈ sh.rows, coordValid r = true →
        (⟨r, sh.name⟩ : SiteRow) ∈ load_site_metadata sheets) ∧
    (load_site_metadata sheets).length
      = (sheets.map (fun sh => (sh.rows.filter coordValid).length)).sum := by
  refine ⟨?_, ?_, ?_⟩
  · intro row hrow
    rw [load_site_metadata, List.mem_flatten] at hrow
    obtain ⟨l, hl, hrl⟩ := hrow
    rw [List.mem_map] at hl
    obtain ⟨sh, hsh, rfl⟩ := hl
    rw [List.mem_map] at hrl
    obtain ⟨r, hr, rfl⟩ := hrl
    rw [List.mem_filter] at hr
    have hv := hr.2
    rw [coordValid] at hv
    simpa [Bool.and_eq_true] using hv
  · intro sh hsh r hr hcv
    rw [load_site_metadata, List.mem_flatten]
    refine ⟨(sh.rows.filter coordValid).map (fun r => ⟨r, sh.name⟩), ?_, ?_⟩
    · exact List.mem_map_of_mem _ hsh
    · exact List.mem_map_of_mem _ (List.mem_filter.mpr ⟨hr, hcv⟩)
  · rw [load_site_metadata, List.length_flatten, List.map_map]
    congr 1
    apply List.map_congr_left
    intro sh _
    simp [Function.comp, List.length_map]

/-- Witness for C1 on a concrete two-sheet workbook: the surviving AWS row
is in the output and the output length matches the coordinate-valid count. -/
theorem C1_witness :
    (⟨recC1a, ("AWS").toList⟩ : SiteRow) ∈ load_site_metadata sheetsC1 ∧
    (load_site_metadata sheetsC1).length
      = (sheetsC1.map (fun sh => (sh.rows.filter coordValid).length)).sum :=
  ⟨(C1_loader_drops_rows_without_coordinates sheetsC1).2.1 sheetC1A (by decide)
      recC1a (by decide) (by decide),
   (C1_loader_drops_rows_without_coordinates sheetsC1).2.2⟩

/-- C2: the claim says the byId lookup canonicalizes the id to string form
and falls back without raising; at the cited lines the code compares the
raw stored cell against the session string, so a numerically stored id is
never found even though its canonical string form equals the selected id,
and iloc[0] then raises IndexError; the canonicalizing comparison used by
the dropdown default-index lookup does find the record. -/
theorem C2_detail_lookup_raw_comparison :
    pyStr rowC2.record.id_station = ("10001").toList ∧
    selected_site_lookup dfC2 (("10001").toList) = Option.none ∧
    firstIdx (fun row => pyStr row.record.id_station == ("10001").toList) dfC2 = some 0 := by
  decide

/-- C3: the claim says a missing install_date renders as an explicit
placeholder and never raises; the detail-panel line calls strftime on the
unguarded cell and raises on a missing date, while the guarded popup line
renders the placeholder. -/
theorem C3_missing_install_date_raises :
    render_procurement_date Option.none = Except.error RenderError.natNoStrftime ∧
    render_popup_install_date Option.none = ("N/A").toList :=
  ⟨rfl, rfl⟩

/-- C4: on a non-empty table, nearest returns the record minimizing the
squared planar distance over the entire table regardless of partition,
breaking ties by the first occurrence in table order, and repeated calls
with identical inputs return the same record. -/
theorem C4_nearest_minimizes_full_table (df : List SiteRow) (lat lon : ℚ)
    (h : df ≠ []) :
    ∃ r, nearest df lat lon = some r ∧
      (∀ x ∈ df, sqDist lat lon r ≤ sqDist lat lon x) ∧
      (∃ l₁ l₂, df = l₁ ++ r :: l₂ ∧ ∀ x ∈ l₁, sqDist lat lon r < sqDist lat lon x) ∧
      nearest df lat lon = nearest df lat lon := by
  obtain ⟨r0, rs, rfl⟩ : ∃ a l, df = a :: l := by
    cases df with
    | nil => exact absurd rfl h
    | cons a l => exact ⟨a, l, rfl⟩
  obtain ⟨hmin, l₁, l₂, hdec, hpre⟩ := idxminFold_first_min (sqDist lat lon) rs r0
  exact ⟨idxminFold (sqDist lat lon) r0 rs, rfl, hmin, ⟨l₁, l₂, hdec, hpre⟩, rfl⟩

/-- Witness for C4 on a concrete two-row table. -/
theorem C4_witness :
    ∃ r, nearest dfC4 0 0 = some r ∧
      (∀ x ∈ dfC4, sqDist 0 0 r ≤ sqDist 0 0 x) ∧
      (∃ l₁ l₂, dfC4 = l₁ ++ r :: l₂ ∧ ∀ x ∈ l₁, sqDist 0 0 r < sqDist 0 0 x) ∧
      nearest dfC4 0 0 = nearest dfC4 0 0 :=
  C4_nearest_minimizes_full_table dfC4 0 0 (by decide)

/-- Counterexample to C5 as stated: a selected id that is the canonical id
of records of both types, but whose string form contains the display
separator; after the type change the session holds the part of the display
string before the first separator occurrence, not the previous id. -/
theorem C5_counterexample :
    (∃ row ∈ filterByType dfC5 (("A").toList),
        pyStr row.record.id_station = ("1 - 2").toList) ∧
    (∃ row ∈ filterByType dfC5 (("B").toList),
        pyStr row.record.id_station = ("1 - 2").toList) ∧
    type_change_rerun dfC5 (("B").toList) (("1 - 2").toList) ≠ ("1 - 2").toList := by
  decide

/-- C5 as amended: for a table whose partition B is non-empty and whose
canonical id strings in B pass unchanged through the separator split, a
type change to B resets the session id to the first record of B when the
previous id is absent from B, and keeps the previous id when it is the
canonical id of some record of B. -/
theorem C5_type_change_revalidation (df : List SiteRow) (A B X : Str)
    (hA : ∃ row ∈ filterByType df A, pyStr row.record.id_station = X)
    (hB : filterByType df B ≠ [])
    (hsep : ∀ row ∈ filterByType df B,
        splitFirst SEP (pyStr row.record.id_station ++ SEP) = pyStr row.record.id_station) :
    ((∀ row ∈ filterByType df B, pyStr row.record.id_station ≠ X) →
        ∃ r0 rest, filterByType df B = r0 :: rest ∧
          type_change_rerun df B X = pyStr r0.record.id_station) ∧
    ((∃ row ∈ filterByType df B, pyStr row.record.id_station = X) →
        type_change_rerun df B X = X) := by
  obtain ⟨r0, rest, hfB⟩ := List.exists_cons_of_ne_nil hB
  have hne : (filterByType df B).isEmpty = false := by rw [hfB]; rfl
  have hunfold : type_change_rerun df B X
      = splitFirst SEP (((filterByType df B).map display).getD
          (default_index (filterByType df B) X) []) := by
    unfold type_change_rerun
    rw [hne]
    simp
  constructor
  · intro habs
    have hnone : firstIdx (fun row => pyStr row.record.id_station == X)
        (filterByType df B) = Option.none := by
      apply (firstIdx_eq_none_iff _ _).mpr
      intro a ha
      exact beq_eq_false_iff_ne.mpr (habs a ha)
    have hidx : default_index (filterByType df B) X = 0 := by
      unfold default_index
      rw [hnone]
    refine ⟨r0, rest, hfB, ?_⟩
    rw [hunfold, hidx, hfB]
    have hget : ((r0 :: rest).map display).getD 0 [] = display r0 := rfl
    rw [hget]
    exact display_roundtrip r0 (hsep r0 (by rw [hfB]; exact List.mem_cons_self r0 rest))
  · intro hpres
    obtain ⟨row, hrow, hrowX⟩ := hpres
    have hnn : firstIdx (fun row => pyStr row.record.id_station == X)
        (filterByType df B) ≠ Option.none := by
      intro hn
      have hfalse := (firstIdx_eq_none_iff _ _).mp hn row hrow
      rw [hrowX] at hfalse
      simp at hfalse
    obtain ⟨i, hi⟩ := Option.ne_none_iff_exists'.mp hnn
    obtain ⟨hilt, hpi⟩ := firstIdx_some_spec
      (fun row => pyStr row.record.id_station == X) (filterByType df B) i dummyRow hi
    have hidx : default_index (filterByType df B) X = i := by
      unfold default_index
      rw [hi]
    have hgetd : ((filterByType df B).map display).getD i []
        = display ((filterByType df B).getD i dummyRow) :=
      getD_map_of_lt display _ i dummyRow [] hilt
    have hmem : (filterByType df B).getD i dummyRow ∈ filterByType df B :=
      getD_mem_of_lt _ i dummyRow hilt
    have hid : pyStr ((filterByType df B).getD i dummyRow).record.id_station = X :=
      eq_of_beq hpi
    rw [hunfold, hidx, hgetd, display_roundtrip _ (hsep _ hmem)]
    exact hid

/-- Witness for C5 on a concrete two-type table: changing to ARG resets the
session to the first ARG id, and keeping the AWS type keeps the id. -/
theorem C5_witness :
    (∃ r0 rest, filterByType dfC5W (("ARG").toList) = r0 :: rest ∧
        type_change_rerun dfC5W (("ARG").toList) (("10001").toList)
          = pyStr r0.record.id_station) ∧
    type_change_rerun dfC5W (("AWS").toList) (("10001").toList) = ("10001").toList := by
  constructor
  · exact (C5_type_change_revalidation dfC5W (("AWS").toList) (("ARG").toList)
      (("10001").toList) (by decide) (by decide) (by decide)).1 (by decide)
  · exact (C5_type_change_revalidation dfC5W (("AWS").toList) (("AWS").toList)
      (("10001").toList) (by decide) (by decide) (by decide)).2 (by decide)

/-- C6: the claim says no operation of a refresh cycle changes the loaded
table; with an empty search term the directory step aliases the loaded
frame and assigns the derived tgl_pasang_str column onto it in place, so
the table observed after the step differs from the table before it, while
a non-empty term leaves the loaded frame unchanged. -/
theorem C6_directory_step_mutates_loaded_table :
    (directory_step dfC6 []).1 ≠ dfC6 ∧
    (directory_step dfC6 (("x").toList)).1 = dfC6 := by
  decide

/-- C7: a spatial pick changes the selected id only after the explicit
confirmation action, and confirming a pick never changes the active type,
even for a candidate of another partition. -/
theorem C7_spatial_pick_requires_confirmation :
    (∀ (df : List SiteRow) (s : SelState) (click : Option (ℚ × ℚ)),
        map_click_step df s click false = s) ∧
    (∀ (df : List SiteRow) (s : SelState) (click : Option (ℚ × ℚ)) (confirm : Bool),
        (map_click_step df s click confirm).activeType = s.activeType) := by
  constructor
  · intro df s click
    unfold map_click_step
    cases resolve_click df click with
    | none => rfl
    | some row => rfl
  · intro df s click confirm
    unfold map_click_step
    cases resolve_click df click with
    | none => rfl
    | some row =>
      cases confirm with
      | false => rfl
      | true => rfl

/-- Counterexample to C8 as stated: the term a.c is not a substring of the
single record, whose name is abc and whose other searched columns are
absent, yet the search returns that record, because the term is compiled
as a regular expression in which the dot matches any character. -/
theorem C8_counterexample :
    search_filter dfC8 (("a.c").toList) = [rowC8] ∧
    search_spec dfC8 (("a.c").toList) = [] ∧
    isSubstrCI (("a.c").toList) rowC8.record.name_station = false ∧
    rowC8.record.nama_propinsi = Option.none ∧
    rowC8.record.nama_kota = Option.none := by
  decide

/-- C8 as amended: for a search term free of regex metacharacters the
search returns exactly the records whose name, province or district
contains the term as a case-insensitive substring, with OR semantics and
in table order, and the empty term returns the full table unfiltered. -/
theorem C8_search_literal_terms (df : List SiteRow) (term : Str)
    (h : noMeta term = true) :
    search_filter df term = search_spec df term ∧ search_filter df [] = df :=
  ⟨search_filter_eq_spec df term h, rfl⟩

/-- Witness for C8 on a concrete table matched through its province. -/
theorem C8_witness :
    search_filter dfC8W (("jakarta").toList) = search_spec dfC8W (("jakarta").toList) ∧
    search_filter dfC8W [] = dfC8W :=
  C8_search_literal_terms dfC8W (("jakarta").toList) (by decide)

/-- Counterexample to C9 as stated: a record whose canonical string id
contains the display separator; splitting the display string on the
separator and taking the first token gives a proper prefix of the id. -/
theorem C9_counterexample :
    splitFirst SEP (display rowC9c) ≠ pyStr rowC9c.record.id_station := by
  decide

/-- C9 as amended: displayName produces the canonical id-name string, and
for every record whose canonical id string passes unchanged through the
separator split the round-trip holds: the first token of the display
string is the canonical string form of the id. -/
theorem C9_display_roundtrip (row : SiteRow)
    (h : splitFirst SEP (pyStr row.record.id_station ++ SEP) = pyStr row.record.id_station) :
    display row = pyStr row.record.id_station ++ SEP ++ row.record.name_station ∧
    splitFirst SEP (display row) = pyStr row.record.id_station :=
  ⟨rfl, display_roundtrip row h⟩

/-- Witness for C9 on a record with a numeric id. -/
theorem C9_witness :
    display rowC9w = pyStr rowC9w.record.id_station ++ SEP ++ rowC9w.record.name_station ∧
    splitFirst SEP (display rowC9w) = pyStr rowC9w.record.id_station :=
  C9_display_roundtrip rowC9w (by decide)

/-- C10: the session selection id is a string at every reachable point: it
is initialized to the string literal 10001, the dropdown transition stores
the substring of the display string before the separator, and a confirmed
map click stores str of the clicked id, so every value the session ever
holds is of string form. -/
theorem C10_selected_id_always_string :
    session_init = PyVal.str (("10001").toList) ∧
    ∀ evs : List SessionEvent,
      isStrVal (evs.foldl session_step session_init) = true := by
  refine ⟨rfl, ?_⟩
  intro evs
  have key : ∀ (l : List SessionEvent) (v : PyVal), isStrVal v = true →
      isStrVal (l.foldl session_step v) = true := by
    intro l
    induction l with
    | nil => intro v hv; exact hv
    | cons e l ih =>
      intro v hv
      cases e with
      | dropdownPick disp => exact ih _ rfl
      | mapClickConfirm row => exact ih _ rfl
  exact key evs session_init rfl
